import Mathlib

/-!
# Verification of the meta-agents-research-environments app/scenario layer

This file gives a shallow embedding, in Lean 4, of the parts of the
`are.simulation` code base that the specification talks about:

* the flight customer-service domain model and the two flight apps
  (`src/are/simulation/apps/flight_customer_service.py`),
* the Gmail browser app (`src/are/simulation/apps/gmail.py`),
* the flight customer-service scenario's `build_events_flow` and
  `validate` entry points
  (`src/are/simulation/scenarios/scenario_flight_customer_service/scenario.py`).

Python dictionaries that carry app snapshots are modelled as association
lists over a universe `SVal` of the values that actually occur, so that
`dict.get(key, default)` is a real lookup and a missing key genuinely
falls back to the default.  Machine-level aspects (the asyncio event
loop, the real browser) are modelled as explicit state records; the
single event loop of `GmailApp` is modelled by executing marshalled
coroutines synchronously, with a `pendingTasks` counter that a
fire-and-forget submission would increment (the source never does).
-/

namespace AreSim

/-! ## Domain enums and dataclasses (flight_customer_service.py) -/

inductive TicketType where
  | ECONOMY | ECONOMY_PLUS | BUSINESS | FIRST_CLASS
deriving DecidableEq, Repr

inductive LoyaltyTier where
  | NORMAL | BRONZE | SILVER | GOLD | PLATINUM
deriving DecidableEq, Repr

inductive BaggageType where
  | NORMAL_BAG | MEDICAL_BAG | SPORTS_EQUIPMENT | WHEELCHAIR | STROLLER | BABY_CARRIER
deriving DecidableEq, Repr

inductive BaggageCheckinType where
  | CARRY_ON | CHECKED_LUGGAGE
deriving DecidableEq, Repr

structure Email where
  email_address : String
  from_address : String
  to_address : List String := []
  title : String := ""
  content : String := ""
deriving DecidableEq, Repr

structure MedicalDocFile where
  diagnosis : String
  carry_on_items : List String := []
deriving DecidableEq, Repr

structure MedicalDocFolder where
  medical_docs : List MedicalDocFile := []
deriving DecidableEq, Repr

structure FlightInformation where
  flight_number : String
  airline : String := "Unity Air"
  origin : String := ""
  destination : String := ""
  departure_time : String := ""
  arrival_time : String := ""
  departure_gate : String := ""
  arrival_terminal : String := ""
deriving DecidableEq, Repr

structure BaggageInfo where
  bagage_type : Option BaggageType := some BaggageType.NORMAL_BAG
  baggage_checkin_type : BaggageCheckinType := BaggageCheckinType.CARRY_ON
  weight : Option String := none
  size : Option String := none
  check_type : Option String := none
deriving DecidableEq, Repr

structure BookingInformation where
  confirmation_number : String
  flight_information : FlightInformation
  passenger_name : String
  loyalty_tier : Option LoyaltyTier := none
  ticket_type : TicketType := TicketType.ECONOMY
  baggage_info : List BaggageInfo := []
deriving DecidableEq, Repr

structure UserMemberInformation where
  name : Option String := none
  email : Option String := none
  air_line : String := "Unity Air"
  loyalty_member_id : Option String := none
  loyalty_tier : Option LoyaltyTier := none
  points_balance : Int := 0
  lifetime_miles : Int := 0
  member_since : String := ""
  phone_number : String := ""
deriving DecidableEq, Repr

structure UserInformation where
  name : Option String := none
  age : Option Int := none
  emails : List String := []
deriving DecidableEq, Repr

structure RegularBaggagePolicy where
  ticket_type : TicketType := TicketType.ECONOMY
  loyalty_tier : LoyaltyTier := LoyaltyTier.NORMAL
  free_checked_bag_number : Int := 0
  checked_bag_weight_allowance : String := "50 lbs"
  additional_fee_for_checked_bag : String := "50 USD"
  carry_on_bag_size : String := "22 x 14 x 9 inches"
deriving DecidableEq, Repr

structure SpecialBaggagePolicy where
  bagage_type : Option BaggageType := none
  allow_to_check_in : Bool := false
  allow_to_carry_on : Bool := false
  require_additional_fee : Bool := true
  weight_allowance : Option String := none
  size_allowance : Option String := none
deriving DecidableEq, Repr

/-! ## Python state dictionaries

`get_state` returns a `dict[str, Any]` and `load_state` reads it back
with `dict.get`.  We model such dictionaries as association lists whose
values range over `SVal`, the (dynamically typed) values the two flight
apps actually store under snapshot keys. -/

inductive SVal where
  | obooking (b : Option BookingInformation)
  | ouinfo (u : Option UserMemberInformation)
  | uinfo (u : UserInformation)
  | folder (m : MedicalDocFolder)
  | emails (l : List Email)
  | str (s : String)
  | bags (l : List BaggageInfo)
  | blist (l : List BookingInformation)
  | mlist (l : List UserMemberInformation)
  | ulist (l : List UserInformation)
  | rlist (l : List RegularBaggagePolicy)
  | slist (l : List SpecialBaggagePolicy)
deriving DecidableEq, Repr

/-- A Python `dict[str, Any]` restricted to the snapshot value universe. -/
def StateDict : Type := List (String × SVal)

instance : DecidableEq StateDict := by
  unfold StateDict
  infer_instance

/-- `d.get(k)` / `d[k]` lookup: the value stored under key `k`, if any. -/
def dget (d : StateDict) (k : String) : Option SVal :=
  (d.find? (fun p => p.1 == k)).map (fun p => p.2)

/-! ## FlightClientApp -/

/-- The fields `FlightClientApp.__post_init__` initializes (the fields of
the base `App` class live outside `src/` and are not part of any claim). -/
structure FlightClientApp where
  name : Option String := none
  air_line : String := "Unity Air"
  bookings : Option BookingInformation := none
  user_membership_info : Option UserMemberInformation := none
  user_info : UserInformation := {}
  medical_folder : MedicalDocFolder := {}
  emails : List Email := []
  baggage_info : List BaggageInfo := []
deriving DecidableEq, Repr

namespace FlightClientApp

/-- `FlightClientApp.__post_init__` (the field assignments made in
`flight_customer_service.py`; `super().__init__` only touches base-class
state). -/
def initApp (name : Option String) : FlightClientApp :=
  { name := name
    air_line := "Unity Air"
    bookings := none
    user_membership_info := none
    user_info := {}
    medical_folder := {}
    emails := []
    baggage_info := [] }

/-- `FlightClientApp.reset`: re-assigns exactly the same fields as
`__post_init__` (`super().reset()` only touches base-class state). -/
def reset (s : FlightClientApp) : FlightClientApp :=
  { s with
    air_line := "Unity Air"
    bookings := none
    user_membership_info := none
    user_info := {}
    medical_folder := {}
    emails := []
    baggage_info := [] }

/-- `FlightClientApp.get_state`: the dictionary literal returned by the
source, in source order. -/
def get_state (s : FlightClientApp) : StateDict :=
  [ ("bookings", SVal.obooking s.bookings)
  , ("user_membership_info", SVal.ouinfo s.user_membership_info)
  , ("user_info", SVal.uinfo s.user_info)
  , ("medical_folder", SVal.folder s.medical_folder)
  , ("emails", SVal.emails s.emails)
  , ("air_line", SVal.str s.air_line)
  , ("baggage_info", SVal.bags s.baggage_info) ]

/-- `FlightClientApp.load_state`.  Each assignment mirrors one
`state_dict.get(...)` in the source.  The source never assigns
`self.emails`, so `emails` keeps its current value.  In the wildcard
branches the key is absent and the source's Python default applies
(`state_dict.get("user_info", {})` and `.get("medical_folder", {})`
use an empty dict as placeholder default; we render it as the empty
typed value, the branch is unreachable for dictionaries produced by
`get_state`). -/
def load_state (s : FlightClientApp) (d : StateDict) : FlightClientApp :=
  { s with
    bookings := match dget d "bookings" with
      | some (SVal.obooking b) => b
      | _ => none
    user_membership_info := match dget d "user_membership_info" with
      | some (SVal.ouinfo u) => u
      | _ => none
    user_info := match dget d "user_info" with
      | some (SVal.uinfo u) => u
      | _ => {}
    medical_folder := match dget d "medical_folder" with
      | some (SVal.folder m) => m
      | _ => {}
    air_line := match dget d "air_line" with
      | some (SVal.str a) => a
      | _ => "Unity Air"
    baggage_info := match dget d "baggage_info" with
      | some (SVal.bags l) => l
      | _ => [] }

end FlightClientApp

/-! ## FlightCustomerServiceApp -/

/-- The Python attribute `self.client_user_info` is dynamically typed:
`__post_init__` stores a `list[UserInformation]`, while `load_state`
stores `state_dict.get("client_user_info", UserInformation())`, whose
default is a single `UserInformation`. -/
inductive ClientUserInfoVal where
  | list (l : List UserInformation)
  | single (u : UserInformation)
deriving DecidableEq, Repr

/-- The fields of `FlightCustomerServiceApp`.  `bookings` is read by
`get_state` but never assigned anywhere in
`flight_customer_service.py`; we model it as a field to be able to
state `get_state` at all (granting the code the benefit of the doubt
that the attribute exists at run time). -/
structure FlightCustomerServiceApp where
  name : Option String := none
  air_line : String := "Unity Air"
  bookings : Option BookingInformation := none
  user_info : UserInformation := {}
  client_booking_info : List BookingInformation := []
  client_membership_info : List UserMemberInformation := []
  client_user_info : ClientUserInfoVal := ClientUserInfoVal.list []
  regular_bag_policies : List RegularBaggagePolicy := []
  special_bag_policies : List SpecialBaggagePolicy := []
deriving DecidableEq, Repr

namespace FlightCustomerServiceApp

/-- `FlightCustomerServiceApp.__post_init__`. -/
def initApp (name : Option String) : FlightCustomerServiceApp :=
  { name := name
    air_line := "Unity Air"
    user_info := {}
    client_booking_info := []
    client_membership_info := []
    client_user_info := ClientUserInfoVal.list []
    regular_bag_policies := []
    special_bag_policies := [] }

/-- `FlightCustomerServiceApp.reset` (assigns the same fields as
`__post_init__`, `user_info` twice in the source). -/
def reset (s : FlightCustomerServiceApp) : FlightCustomerServiceApp :=
  { s with
    air_line := "Unity Air"
    user_info := {}
    client_user_info := ClientUserInfoVal.list []
    client_booking_info := []
    client_membership_info := []
    regular_bag_policies := []
    special_bag_policies := [] }

/-- `FlightCustomerServiceApp.get_state`: the dictionary literal of the
source, in source order.  Note that the client bookings are exported
under the key `"client_bookings"`. -/
def get_state (s : FlightCustomerServiceApp) : StateDict :=
  [ ("bookings", SVal.obooking s.bookings)
  , ("user_info", SVal.uinfo s.user_info)
  , ("client_bookings", SVal.blist s.client_booking_info)
  , ("client_membership_info", SVal.mlist s.client_membership_info)
  , ("regular_bag_policies", SVal.rlist s.regular_bag_policies)
  , ("special_bag_policies", SVal.slist s.special_bag_policies) ]

/-- `FlightCustomerServiceApp.load_state`.  The source reads
`state_dict.get("client_user_info", [])` into `client_booking_info` —
i.e. a key `get_state` never writes — and never reads
`"client_bookings"`.  `self.user_info` is assigned twice from the same
key in the source, which collapses to a single assignment.  Wildcard
branches are the `dict.get` defaults for absent keys. -/
def load_state (s : FlightCustomerServiceApp) (d : StateDict) : FlightCustomerServiceApp :=
  { s with
    air_line := match dget d "air_line" with
      | some (SVal.str a) => a
      | _ => "Unity Air"
    user_info := match dget d "user_info" with
      | some (SVal.uinfo u) => u
      | _ => {}
    client_user_info := match dget d "client_user_info" with
      | some (SVal.ulist l) => ClientUserInfoVal.list l
      | _ => ClientUserInfoVal.single {}
    client_booking_info := match dget d "client_user_info" with
      | some (SVal.blist l) => l
      | _ => []
    client_membership_info := match dget d "client_membership_info" with
      | some (SVal.mlist l) => l
      | _ => []
    regular_bag_policies := match dget d "regular_bag_policies" with
      | some (SVal.rlist l) => l
      | _ => []
    special_bag_policies := match dget d "special_bag_policies" with
      | some (SVal.slist l) => l
      | _ => [] }

end FlightCustomerServiceApp

/-! ## The booking-info regular expression

`FlightClientApp.get_booking_info_from_email` runs
`re.search(r"flight is is (\w+).*confirmation number is (\w+)", content)`.
We implement the semantics of exactly this pattern over `List Char`:
`\w` is a word character (modelled for the ASCII range, where Python's
unicode `\w` agrees), `.` matches any character except a newline
(`re.DOTALL` is off), `re.search` returns the leftmost match, and both
`(\w+)` groups and `.*` are greedy. -/

/-- Python `\w` (on the ASCII range). -/
def isWordChar (c : Char) : Bool := c.isAlphanum || c == '_'

/-- First literal of the pattern (note the doubled `is is`). -/
def bookingLit1 : List Char := "flight is is ".toList

/-- Second literal of the pattern. -/
def bookingLit2 : List Char := "confirmation number is ".toList

/-- `pat` occurs in `s` starting at index `i`. -/
def occursAt (s : List Char) (i : Nat) (pat : List Char) : Bool :=
  decide ((s.drop i).take pat.length = pat)

/-- No newline among the `len` characters of `s` starting at `lo`
(the region `.*` has to cover). -/
def noNewline (s : List Char) (lo len : Nat) : Bool :=
  ((s.drop lo).take len).all (fun c => !(c == '\n'))

/-- The pattern matches with the first literal at `i`, the first group
consuming `k` word characters, and the second literal at `j`. -/
def bookingMatchAtWith (s : List Char) (i k j : Nat) : Bool :=
  occursAt s i bookingLit1 &&
  decide (1 ≤ k) &&
  decide (k ≤ ((s.drop (i + bookingLit1.length)).takeWhile isWordChar).length) &&
  decide (i + bookingLit1.length + k ≤ j) &&
  occursAt s j bookingLit2 &&
  decide (j + bookingLit2.length < s.length) &&
  isWordChar (s.getD (j + bookingLit2.length) ' ') &&
  noNewline s (i + bookingLit1.length + k) (j - (i + bookingLit1.length + k))

/-- The pattern matches somewhere starting with the first literal at `i`.
Word characters are never newlines, so a match with some `k ≥ 1` exists
iff one with `k = 1` does.  (The leading `occursAt` test is implied by
every disjunct of the `any`; it only lets evaluation fail fast.) -/
def bookingMatchFrom (s : List Char) (i : Nat) : Bool :=
  occursAt s i bookingLit1 &&
  (List.range s.length).any (fun j => bookingMatchAtWith s i 1 j)

/-- `re.search` succeeds on `content`. -/
def regexSearchHit (content : String) : Bool :=
  let s := content.toList
  (List.range s.length).any (fun i => bookingMatchFrom s i)

/-- The two captured groups, for the leftmost match, with greedy `(\w+)`
(largest `k` for which the rest still matches), greedy `.*` (largest
`j`), and greedy trailing `(\w+)` (maximal word run after the second
literal).  Only called when a match exists; the `getD` fallbacks are
unreachable then. -/
def extractGroupsAt (s : List Char) (i : Nat) : String × String :=
  let maxRun := ((s.drop (i + bookingLit1.length)).takeWhile isWordChar).length
  let k := (((List.range (maxRun + 1)).filter (fun k =>
      (List.range s.length).any (fun j => bookingMatchAtWith s i k j))).getLast?).getD 1
  let j := (((List.range s.length).filter (fun j =>
      bookingMatchAtWith s i k j)).getLast?).getD 0
  ( ((s.drop (i + bookingLit1.length)).take k).asString
  , ((s.drop (j + bookingLit2.length)).takeWhile isWordChar).asString )

/-- `re.search(pattern, content)`: `none` when there is no match,
otherwise the pair `(match.group(1), match.group(2))`. -/
def regexFindGroups (content : String) : Option (String × String) :=
  let s := content.toList
  ((List.range s.length).find? (fun i => bookingMatchFrom s i)).map
    (fun i => extractGroupsAt s i)

namespace FlightClientApp

/-- `FlightClientApp.get_booking_info_from_email`: scans `self.emails`,
overwriting `self.bookings` at each email whose content matches the
pattern (`match.group(1)` is the flight number, `match.group(2)` the
confirmation number), then returns `self.bookings`.
`passenger_name=(self.user_info.name or "")`. -/
def get_booking_info_from_email (s : FlightClientApp) :
    Option BookingInformation × FlightClientApp :=
  let b := s.emails.foldl (fun acc email =>
    match regexFindGroups email.content with
    | some (flight_number, confirmation_number) =>
        some { confirmation_number := confirmation_number
               flight_information := { flight_number := flight_number }
               passenger_name := s.user_info.name.getD "" }
    | none => acc) s.bookings
  (b, { s with bookings := b })

/-- `FlightClientApp.get_booking_info`: returns `self.bookings` when it
is truthy (a dataclass instance always is), else falls back to the
email scan. -/
def get_booking_info (s : FlightClientApp) :
    Option BookingInformation × FlightClientApp :=
  match s.bookings with
  | some b => (some b, s)
  | none => get_booking_info_from_email s

/-- `FlightClientApp.say_hi_to_customer_service` (pure handler). -/
def say_hi_to_customer_service (s : FlightClientApp) : String × FlightClientApp :=
  ("Hi, my name is Alex Sharma, and I need your help?", s)

end FlightClientApp

/-- `FlightCustomerServiceApp.get_greeting_message_to_client` (pure
handler; the source string is a triple-quoted literal continuing on an
indented line). -/
def FlightCustomerServiceApp.get_greeting_message_to_client
    (s : FlightCustomerServiceApp) : String × FlightCustomerServiceApp :=
  ("Hello, my name is Sarah Chen, and I am happy to help you.\n         Can you please provide me with your confirmation number and your loytalty_member_id?", s)

/-! ## Scenario validation (scenario_flight_customer_service/scenario.py) -/

/-- Python exception values, abstracted to their message. -/
abbrev PyErr := String

structure ScenarioValidationResult where
  success : Bool
  exception : Option PyErr := none
deriving DecidableEq

/-- `ScenarioFlightCustomerServiceWithMedicalBag.validate(env)`.

`env.get_app("FlightCustomerServiceApp")` happens inside the `try:`
block and may raise; it is modelled by the `lookup` argument.  The two
nested `for`/`if`/`return Success` loops over
`customer_service_app.client_booking_info` translate to `List.any`;
when no iteration returns, the source returns a `success=False` result,
and the `except Exception` handler returns a `success=False` result
carrying the exception. -/
def validateMedicalBag (lookup : Except PyErr FlightCustomerServiceApp) :
    ScenarioValidationResult :=
  match lookup with
  | Except.error e => { success := false, exception := some e }
  | Except.ok customer_service_app =>
    if customer_service_app.client_booking_info.any (fun booking =>
         decide (booking.confirmation_number = "UA_confirm_123") &&
         booking.baggage_info.any (fun bag_info =>
           decide (bag_info.bagage_type = some BaggageType.MEDICAL_BAG)))
    then { success := true }
    else { success := false }

/-! ## GmailApp (gmail.py)

The app drives a real browser through `browser_use` events.  Every call
touching the browser is executed with
`self._run_async(coro) = self._loop.run_until_complete(coro)` on the
app's single event loop, i.e. synchronously from the caller's point of
view; we therefore model a marshalled coroutine as an immediate state
transition.  A fire-and-forget submission (e.g. `loop.create_task`)
would instead increment `pendingTasks`; the source contains none, so no
definition below touches that counter.  The browser's observable state
is a record of its navigation and interaction history.  Each fallible
browser primitive gets its outcome from a `BrowserBehavior`, so that
one definition covers both the happy path and every raising path. -/

/-- Observable state of the shared `browser_use` Browser plus the app's
event loop (`slept`, `pendingTasks`). -/
structure BrowserState where
  started : Bool := false
  startCalls : Nat := 0
  stopCalls : Nat := 0
  currentUrl : String := ""
  navigations : List String := []
  backCount : Nat := 0
  clickCount : Nat := 0
  typeCount : Nat := 0
  keysSent : List String := []
  tabSwitches : Nat := 0
  tabsClosed : Nat := 0
  scrollCount : Nat := 0
  selectCount : Nat := 0
  evalCount : Nat := 0
  slept : Int := 0
  pendingTasks : Nat := 0
deriving DecidableEq, Repr

/-- The dictionary `select_dropdown` receives from
`event.event_result()` (string-keyed, all entries optional). -/
structure SelectionData where
  success : Option String := none
  message : Option String := none
  short_term_memory : Option String := none
  error : Option String := none
deriving DecidableEq, Repr

/-- The CDP `Runtime.evaluate` response as `evaluate` consumes it.  The
`str`/`json.dumps` rendering of a non-`None` JavaScript value is
abstracted into `valueText`. -/
structure EvalResultData where
  exceptionDetails : Option (Option String) := none
  wasThrown : Bool := false
  valueKeyPresent : Bool := true
  valueIsNone : Bool := false
  valueText : String := ""
deriving DecidableEq, Repr

/-- Outcomes of the fallible browser primitives: `Except.error` models
the awaited call raising.  `getElement`/`getCurrentPage` return whether
the element/page was found (`None` in Python is `ok false`). -/
structure BrowserBehavior where
  awaitEvent : Except PyErr Unit := Except.ok ()
  eventResult : Except PyErr Unit := Except.ok ()
  getElement : Except PyErr Bool := Except.ok true
  getCurrentPage : Except PyErr Bool := Except.ok true
  mouseClick : Except PyErr Unit := Except.ok ()
  targetId : Except PyErr String := Except.ok "TARGETID0001"
  newTargetId : Option String := some "TARGETID0001"
  cdpSession : Except PyErr Unit := Except.ok ()
  layoutMetrics : Except PyErr Nat := Except.ok 1000
  scrollToTextResult : Except PyErr Unit := Except.ok ()
  dropdownData : Except PyErr (Option (Option String)) := Except.ok (some none)
  selectionData : Except PyErr (Option SelectionData) := Except.ok none
  evalResult : Except PyErr EvalResultData := Except.ok {}

/-- A single-quote character, written via its code point. -/
def sq : String := String.singleton (Char.ofNat 39)

/-- UTF-8 encoding of a character, as byte values. -/
def utf8Bytes (c : Char) : List Nat :=
  let n := c.toNat
  if n < 0x80 then [n]
  else if n < 0x800 then
    [0xC0 ||| (n >>> 6), 0x80 ||| (n &&& 0x3F)]
  else if n < 0x10000 then
    [0xE0 ||| (n >>> 12), 0x80 ||| ((n >>> 6) &&& 0x3F), 0x80 ||| (n &&& 0x3F)]
  else
    [0xF0 ||| (n >>> 18), 0x80 ||| ((n >>> 12) &&& 0x3F),
     0x80 ||| ((n >>> 6) &&& 0x3F), 0x80 ||| (n &&& 0x3F)]

def hexDigit (n : Nat) : Char := "0123456789ABCDEF".toList.getD n '0'

/-- `%XX` percent-encoding of one byte (uppercase hex). -/
def pctByte (b : Nat) : List Char := ['%', hexDigit (b / 16), hexDigit (b % 16)]

/-- `urllib.parse.quote_plus`: ASCII letters, digits and `_.-~` are
kept, a space becomes `+`, every other character is percent-encoded
byte-wise. -/
def quote_plus (s : String) : String :=
  (s.toList.flatMap (fun c =>
    if c == ' ' then ['+']
    else if c.isAlphanum || c == '_' || c == '.' || c == '-' || c == '~' then [c]
    else (utf8Bytes c).flatMap pctByte)).asString

/-- Python `str.lower()` (for the ASCII engine names it is applied to). -/
def pyLower (s : String) : String := (s.toList.map Char.toLower).asString

/-- Python `str.title()` (for the ASCII engine names it is applied to). -/
def pyTitle (s : String) : String :=
  ((s.toList.foldl (fun (acc : List Char × Bool) c =>
      let out := if c.isAlpha then (if acc.2 then c.toLower else c.toUpper) else c
      (acc.1 ++ [out], c.isAlpha)) ([], false)).1).asString

/-- Python `s[-n:]`. -/
def takeRightStr (s : String) (n : Nat) : String :=
  ((s.toList.reverse.take n).reverse).asString

/-- A `try:`/`except Exception as e:` block whose handler returns a
string built from the exception. -/
def pyTry (st : BrowserState)
    (body : BrowserState → Except PyErr String × BrowserState)
    (handler : PyErr → String) : Except PyErr String × BrowserState :=
  match body st with
  | (Except.ok m, st2) => (Except.ok m, st2)
  | (Except.error e, st2) => (Except.ok (handler e), st2)

namespace GmailApp

/-- `GmailApp.search`: builds the search URL (outside the `try:`), then
dispatches the same `NavigateToUrlEvent` as `navigate` does. -/
def search (b : BrowserBehavior) (query engine : String) (st : BrowserState) :
    Except PyErr String × BrowserState :=
  let encoded_query := quote_plus query
  let engKey := pyLower engine
  let search_url? : Option String :=
    if engKey == "duckduckgo" then some ("https://duckduckgo.com/?q=" ++ encoded_query)
    else if engKey == "google" then some ("https://www.google.com/search?q=" ++ encoded_query ++ "&udm=14")
    else if engKey == "bing" then some ("https://www.bing.com/search?q=" ++ encoded_query)
    else none
  match search_url? with
  | none =>
    (Except.ok s!"Unsupported search engine: {engine}. Options: duckduckgo, google, bing", st)
  | some search_url =>
    pyTry st (fun st =>
      match b.awaitEvent with
      | Except.error e => (Except.error e, st)
      | Except.ok _ =>
        let st := { st with navigations := st.navigations ++ [search_url],
                            currentUrl := search_url }
        match b.eventResult with
        | Except.error e => (Except.error e, st)
        | Except.ok _ =>
          let t := pyTitle engine
          (Except.ok (s!"Searched {t} for " ++ sq ++ query ++ sq), st))
      (fun e => s!"Failed to search {engine} for \"{query}\": {e}")

/-- `GmailApp.navigate`. -/
def navigate (b : BrowserBehavior) (url : String) (new_tab : Bool) (st : BrowserState) :
    Except PyErr String × BrowserState :=
  pyTry st (fun st =>
    match b.awaitEvent with
    | Except.error e => (Except.error e, st)
    | Except.ok _ =>
      let st := { st with navigations := st.navigations ++ [url], currentUrl := url }
      match b.eventResult with
      | Except.error e => (Except.error e, st)
      | Except.ok _ =>
        (Except.ok (if new_tab then s!"Opened new tab with URL {url}" else s!"Navigated to {url}"), st))
    (fun e => s!"Navigation failed: {e}")

/-- `GmailApp.go_back` (the event is awaited but no `event_result` is
requested). -/
def go_back (b : BrowserBehavior) (st : BrowserState) :
    Except PyErr String × BrowserState :=
  pyTry st (fun st =>
    match b.awaitEvent with
    | Except.error e => (Except.error e, st)
    | Except.ok _ =>
      (Except.ok "Navigated back", { st with backCount := st.backCount + 1 }))
    (fun e => s!"Failed to go back: {e}")

/-- `GmailApp.wait`: sleeps `min(max(seconds - 1, 0), 30)` seconds on
the loop but reports the requested number. -/
def wait (seconds : Int) (st : BrowserState) :
    Except PyErr String × BrowserState :=
  let actual_seconds : Int := min (max (seconds - 1) 0) 30
  (Except.ok s!"Waited for {seconds} seconds", { st with slept := st.slept + actual_seconds })

/-- `GmailApp._click_by_index`. -/
def click_by_index (b : BrowserBehavior) (index : Int) (st : BrowserState) :
    Except PyErr String × BrowserState :=
  pyTry st (fun st =>
    match b.getElement with
    | Except.error e => (Except.error e, st)
    | Except.ok false =>
      (Except.ok s!"Element index {index} not available - page may have changed", st)
    | Except.ok true =>
      match b.awaitEvent with
      | Except.error e => (Except.error e, st)
      | Except.ok _ =>
        let st := { st with clickCount := st.clickCount + 1 }
        match b.eventResult with
        | Except.error e => (Except.error e, st)
        | Except.ok _ => (Except.ok s!"Clicked element {index}", st))
    (fun e => s!"Failed to click element {index}: {e}")

/-- `GmailApp._click_by_coordinate`. -/
def click_by_coordinate (b : BrowserBehavior) (x y : Int) (st : BrowserState) :
    Except PyErr String × BrowserState :=
  pyTry st (fun st =>
    match b.getCurrentPage with
    | Except.error e => (Except.error e, st)
    | Except.ok false => (Except.ok "No active page found", st)
    | Except.ok true =>
      match b.mouseClick with
      | Except.error e => (Except.error e, st)
      | Except.ok _ =>
        (Except.ok s!"Clicked on coordinate {x}, {y}",
         { st with clickCount := st.clickCount + 1 }))
    (fun e => s!"Failed to click at coordinates ({x}, {y}): {e}")

/-- `GmailApp.click`: argument validation, then index- or
coordinate-based clicking. -/
def click (b : BrowserBehavior) (index coordinate_x coordinate_y : Option Int)
    (st : BrowserState) : Except PyErr String × BrowserState :=
  match index, coordinate_x, coordinate_y with
  | none, some x, some y => click_by_coordinate b x y st
  | none, _, _ =>
    (Except.ok "Must provide either index or both coordinate_x and coordinate_y", st)
  | some i, _, _ => click_by_index b i st

/-- `GmailApp.input`. -/
def input (b : BrowserBehavior) (index : Int) (text : String) (_clear : Bool)
    (st : BrowserState) : Except PyErr String × BrowserState :=
  pyTry st (fun st =>
    match b.getElement with
    | Except.error e => (Except.error e, st)
    | Except.ok false =>
      (Except.ok s!"Element index {index} not available - page may have changed", st)
    | Except.ok true =>
      match b.awaitEvent with
      | Except.error e => (Except.error e, st)
      | Except.ok _ =>
        let st := { st with typeCount := st.typeCount + 1 }
        match b.eventResult with
        | Except.error e => (Except.error e, st)
        | Except.ok _ => (Except.ok ("Typed " ++ sq ++ text ++ sq), st))
    (fun e => s!"Failed to type text into element {index}: {e}")

/-- `GmailApp.send_keys`. -/
def send_keys (b : BrowserBehavior) (keys : String) (st : BrowserState) :
    Except PyErr String × BrowserState :=
  pyTry st (fun st =>
    match b.awaitEvent with
    | Except.error e => (Except.error e, st)
    | Except.ok _ =>
      let st := { st with keysSent := st.keysSent ++ [keys] }
      match b.eventResult with
      | Except.error e => (Except.error e, st)
      | Except.ok _ => (Except.ok s!"Sent keys: {keys}", st))
    (fun e => s!"Failed to send keys: {e}")

/-- `GmailApp.switch_tab` (its `event_result` uses `raise_if_any=False`
and yields the optional new target id). -/
def switch_tab (b : BrowserBehavior) (tab_id : String) (st : BrowserState) :
    Except PyErr String × BrowserState :=
  pyTry st (fun st =>
    match b.targetId with
    | Except.error e => (Except.error e, st)
    | Except.ok _target =>
      match b.awaitEvent with
      | Except.error e => (Except.error e, st)
      | Except.ok _ =>
        let st := { st with tabSwitches := st.tabSwitches + 1 }
        match b.newTargetId with
        | some new_target_id =>
          let tail := takeRightStr new_target_id 4
          (Except.ok s!"Switched to tab #{tail}", st)
        | none => (Except.ok s!"Switched to tab #{tab_id}", st))
    (fun _e => s!"Attempted to switch to tab #{tab_id}")

/-- `GmailApp.close_tab`. -/
def close_tab (b : BrowserBehavior) (tab_id : String) (st : BrowserState) :
    Except PyErr String × BrowserState :=
  pyTry st (fun st =>
    match b.targetId with
    | Except.error e => (Except.error e, st)
    | Except.ok _target =>
      match b.awaitEvent with
      | Except.error e => (Except.error e, st)
      | Except.ok _ =>
        (Except.ok s!"Closed tab #{tab_id}", { st with tabsClosed := st.tabsClosed + 1 }))
    (fun _e => s!"Tab #{tab_id} closed (was already closed or invalid)")

/-- `GmailApp.scroll`.  The viewport height is fetched under an inner
`except Exception: viewport_height = 1000`; the pixel arithmetic is
floating point in the source and only the dispatched `ScrollEvent` is
recorded on the state.  Python float rendering of `pages` in the
message is modelled by the rational's rendering. -/
def scroll (b : BrowserBehavior) (down : Bool) (pages : Rat) (index : Option Int)
    (st : BrowserState) : Except PyErr String × BrowserState :=
  pyTry st (fun st =>
    let nodeIdx : Option Int := match index with
      | some i => if i ≠ 0 then some i else none
      | none => none
    let proceed : BrowserState → Except PyErr String × BrowserState := fun st =>
      let direction := if down then "down" else "up"
      let viewport_height : Nat :=
        match b.cdpSession with
        | Except.error _ => 1000
        | Except.ok _ =>
          match b.layoutMetrics with
          | Except.error _ => 1000
          | Except.ok v => v
      match b.awaitEvent with
      | Except.error e => (Except.error e, st)
      | Except.ok _ =>
        let st := { st with scrollCount := st.scrollCount + 1 }
        match b.eventResult with
        | Except.error e => (Except.error e, st)
        | Except.ok _ =>
          let target := match nodeIdx with
            | some i => s!"element {i}"
            | none => ""
          if pages = 1 then
            (Except.ok ((s!"Scrolled {direction} {target} {viewport_height}px").replace "  " " "), st)
          else
            (Except.ok ((s!"Scrolled {direction} {target} {pages} pages").replace "  " " "), st)
    match nodeIdx with
    | some i =>
      match b.getElement with
      | Except.error e => (Except.error e, st)
      | Except.ok false => (Except.ok s!"Element index {i} not found in browser state", st)
      | Except.ok true => proceed st
    | none => proceed st)
    (fun _e => "Failed to execute scroll action")

/-- `GmailApp.find_text`: dispatches `ScrollToTextEvent`; an inner
`try`/`except` turns a failed `event_result` into a "not found"
message. -/
def find_text (b : BrowserBehavior) (text : String) (st : BrowserState) :
    Except PyErr String × BrowserState :=
  pyTry st (fun st =>
    match b.scrollToTextResult with
    | Except.ok _ =>
      (Except.ok s!"Scrolled to text: {text}", { st with scrollCount := st.scrollCount + 1 })
    | Except.error _e =>
      (Except.ok ("Text " ++ sq ++ text ++ sq ++ " not found or not visible on page"), st))
    (fun _e => "Failed to find text " ++ sq ++ text ++ sq)

/-- `GmailApp.screenshot` (no browser interaction). -/
def screenshot (st : BrowserState) : Except PyErr String × BrowserState :=
  (Except.ok "Requested screenshot for next observation", st)

/-- `GmailApp.dropdown_options`. -/
def dropdown_options (b : BrowserBehavior) (index : Int) (st : BrowserState) :
    Except PyErr String × BrowserState :=
  pyTry st (fun st =>
    match b.getElement with
    | Except.error e => (Except.error e, st)
    | Except.ok false =>
      (Except.ok s!"Element index {index} not available - page may have changed", st)
    | Except.ok true =>
      match b.dropdownData with
      | Except.error e => (Except.error e, st)
      | Except.ok none => (Except.ok "Failed to get dropdown options - no data returned", st)
      | Except.ok (some none) => (Except.ok "Got dropdown options", st)
      | Except.ok (some (some m)) => (Except.ok m, st))
    (fun _e => s!"Failed to get dropdown options for element {index}")

/-- `GmailApp.select_dropdown`. -/
def select_dropdown (b : BrowserBehavior) (index : Int) (text : String)
    (st : BrowserState) : Except PyErr String × BrowserState :=
  pyTry st (fun st =>
    match b.getElement with
    | Except.error e => (Except.error e, st)
    | Except.ok false =>
      (Except.ok s!"Element index {index} not available - page may have changed", st)
    | Except.ok true =>
      match b.selectionData with
      | Except.error e => (Except.error e, st)
      | Except.ok data =>
        let st := { st with selectCount := st.selectCount + 1 }
        match data with
        | none => (Except.ok "Failed to select dropdown option - no data returned", st)
        | some sd =>
          if sd.success == some "true" then
            (Except.ok (sd.message.getD s!"Selected option: {text}"), st)
          else
            match sd.short_term_memory with
            | some m => (Except.ok m, st)
            | none => (Except.ok (sd.error.getD s!"Failed to select option: {text}"), st))
    (fun _e => ("Failed to select dropdown option " ++ sq ++ text ++ sq ++ s!" at index {index}"))

/-- `GmailApp.write_file` (placeholder, file system not implemented). -/
def write_file (file_name _content : String) (_append _trailing _leading : Bool)
    (st : BrowserState) : Except PyErr String × BrowserState :=
  (Except.ok s!"write_file not yet implemented for file: {file_name}", st)

/-- `GmailApp.replace_file` (placeholder). -/
def replace_file (file_name _old_str _new_str : String) (st : BrowserState) :
    Except PyErr String × BrowserState :=
  (Except.ok s!"replace_file not yet implemented for file: {file_name}", st)

/-- `GmailApp.read_file` (placeholder). -/
def read_file (file_name : String) (st : BrowserState) :
    Except PyErr String × BrowserState :=
  (Except.ok s!"read_file not yet implemented for file: {file_name}", st)

/-- `GmailApp.evaluate`. -/
def evaluate (b : BrowserBehavior) (_code : String) (st : BrowserState) :
    Except PyErr String × BrowserState :=
  pyTry st (fun st =>
    match b.cdpSession with
    | Except.error e => (Except.error e, st)
    | Except.ok _ =>
      match b.evalResult with
      | Except.error e => (Except.error e, st)
      | Except.ok result =>
        let st := { st with evalCount := st.evalCount + 1 }
        match result.exceptionDetails with
        | some txt =>
          (Except.ok ("JavaScript execution error: " ++ txt.getD "Unknown error"), st)
        | none =>
          if result.wasThrown then
            (Except.ok "JavaScript execution failed (wasThrown=true)", st)
          else
            let result_text :=
              if result.valueIsNone then
                (if result.valueKeyPresent then "None" else "undefined")
              else result.valueText
            let result_text :=
              if result_text.length > 20000 then
                (result_text.take 19950) ++ "\n... [Truncated after 20000 characters]"
              else result_text
            (Except.ok result_text, st))
    (fun e => s!"Failed to execute JavaScript: {e}")

end GmailApp

/-- The capabilities `GmailApp` registers, with their bound arguments. -/
inductive GmailCapCall where
  | search (query engine : String)
  | navigate (url : String) (new_tab : Bool)
  | go_back
  | wait (seconds : Int)
  | click (index coordinate_x coordinate_y : Option Int)
  | input (index : Int) (text : String) (clear : Bool)
  | send_keys (keys : String)
  | switch_tab (tab_id : String)
  | close_tab (tab_id : String)
  | scroll (down : Bool) (pages : Rat) (index : Option Int)
  | find_text (text : String)
  | screenshot
  | dropdown_options (index : Int)
  | select_dropdown (index : Int) (text : String)
  | write_file (file_name content : String) (append trailing_newline leading_newline : Bool)
  | replace_file (file_name old_str new_str : String)
  | read_file (file_name : String)
  | evaluate (code : String)
deriving DecidableEq

/-- `OperationType` of `are.simulation.tool_utils`, as used by the
`@event_registered(operation_type=...)` decorators. -/
inductive OperationType where
  | READ
  | WRITE
deriving DecidableEq, Repr

/-- The read/write classification each capability is registered with in
`gmail.py` (the `operation_type` of its `@event_registered`
decorator). -/
def gmailOpType : GmailCapCall → OperationType
  | GmailCapCall.search .. => OperationType.READ
  | GmailCapCall.navigate .. => OperationType.WRITE
  | GmailCapCall.go_back => OperationType.WRITE
  | GmailCapCall.wait .. => OperationType.READ
  | GmailCapCall.click .. => OperationType.WRITE
  | GmailCapCall.input .. => OperationType.WRITE
  | GmailCapCall.send_keys .. => OperationType.WRITE
  | GmailCapCall.switch_tab .. => OperationType.WRITE
  | GmailCapCall.close_tab .. => OperationType.WRITE
  | GmailCapCall.scroll .. => OperationType.READ
  | GmailCapCall.find_text .. => OperationType.READ
  | GmailCapCall.screenshot => OperationType.READ
  | GmailCapCall.dropdown_options .. => OperationType.READ
  | GmailCapCall.select_dropdown .. => OperationType.WRITE
  | GmailCapCall.write_file .. => OperationType.WRITE
  | GmailCapCall.replace_file .. => OperationType.WRITE
  | GmailCapCall.read_file .. => OperationType.READ
  | GmailCapCall.evaluate .. => OperationType.WRITE

/-- Executing one capability call against the browser. -/
def runGmailCap : GmailCapCall → BrowserBehavior → BrowserState →
    Except PyErr String × BrowserState
  | GmailCapCall.search q eng, b, st => GmailApp.search b q eng st
  | GmailCapCall.navigate url nt, b, st => GmailApp.navigate b url nt st
  | GmailCapCall.go_back, b, st => GmailApp.go_back b st
  | GmailCapCall.wait s, _b, st => GmailApp.wait s st
  | GmailCapCall.click i x y, b, st => GmailApp.click b i x y st
  | GmailCapCall.input i t c, b, st => GmailApp.input b i t c st
  | GmailCapCall.send_keys k, b, st => GmailApp.send_keys b k st
  | GmailCapCall.switch_tab t, b, st => GmailApp.switch_tab b t st
  | GmailCapCall.close_tab t, b, st => GmailApp.close_tab b t st
  | GmailCapCall.scroll d p i, b, st => GmailApp.scroll b d p i st
  | GmailCapCall.find_text t, b, st => GmailApp.find_text b t st
  | GmailCapCall.screenshot, _b, st => GmailApp.screenshot st
  | GmailCapCall.dropdown_options i, b, st => GmailApp.dropdown_options b i st
  | GmailCapCall.select_dropdown i t, b, st => GmailApp.select_dropdown b i t st
  | GmailCapCall.write_file f c a t l, _b, st => GmailApp.write_file f c a t l st
  | GmailCapCall.replace_file f o n, _b, st => GmailApp.replace_file f o n st
  | GmailCapCall.read_file f, _b, st => GmailApp.read_file f st
  | GmailCapCall.evaluate c, b, st => GmailApp.evaluate b c st

/-! ### GmailApp lifecycle -/

/-- The parsed contents of a Gmail state JSON file (a string-keyed
object, values abstracted to strings). -/
abbrev GmailJson := List (String × String)

/-- The URL the spawned `gmail-clone` simulation reports via
`sim.get_url()` (one fixed external value). -/
def simUrl : String := "sim://gmail-clone"

/-- The `GmailApp` fields assigned in `gmail.py` (base-`App` state lives
outside `src/`). -/
structure GmailApp where
  name : String := "GmailApp"
  state_file : String := "data/gmail_state.json"
  connected : Bool := false
  owns_browser : Bool := true
  app_state : GmailJson := []
  simOpen : Bool := false
  browser : BrowserState := {}
deriving DecidableEq

namespace GmailApp

/-- `GmailApp.spawn`: spawns the simulation, marks the app connected,
starts the browser only when the app owns it, and always navigates the
browser to the simulation's URL. -/
def spawn (s : GmailApp) : GmailApp :=
  let s := { s with simOpen := true, connected := true }
  let s := if s.owns_browser then
      let br := { s.browser with started := true, startCalls := s.browser.startCalls + 1 }
      { s with browser := br }
    else s
  let br := { s.browser with navigations := s.browser.navigations ++ [simUrl], currentUrl := simUrl }
  { s with browser := br }

/-- `GmailApp.__init__`: records whether the browser was created here
(`self._owns_browser = browser is None`), loads `app_state` from the
state file (`file_state` stands for the parsed file contents), and
spawns immediately. -/
def initApp (file_state : GmailJson) (browser : Option BrowserState) : GmailApp :=
  let s : GmailApp := { connected := false
                        browser := browser.getD {}
                        owns_browser := browser.isNone
                        app_state := file_state }
  s.spawn

/-- `GmailApp.get_state` = `get_state_dict(self, ["app_state"])`: the
snapshot holds exactly the `app_state` field (`get_state_dict` lives in
`are.simulation.utils`, outside `src/`; modelled as the dictionary of
the listed fields, which we identify with its single payload). -/
def get_state (s : GmailApp) : GmailJson := s.app_state

/-- `GmailApp.load_state`: `setattr` for every key of the state dict —
for a `get_state` snapshot exactly `app_state` — then re-`spawn`. -/
def load_state (s : GmailApp) (d : GmailJson) : GmailApp :=
  ({ s with app_state := d }).spawn

/-- `GmailApp.close`: closes the simulation and stops the browser only
when the app owns it. -/
def close (s : GmailApp) : GmailApp :=
  let s := { s with simOpen := false }
  if s.owns_browser then
    let br := { s.browser with started := false, stopCalls := s.browser.stopCalls + 1 }
    { s with browser := br }
  else s

/-- `GmailApp.reset`: clears `app_state` to the empty dict and closes
(`super().reset()` only touches base-class state). -/
def reset (s : GmailApp) : GmailApp :=
  ({ s with app_state := [] }).close

end GmailApp

/-- Every operation of the Gmail app (lifecycle and capabilities). -/
inductive GmailOp where
  | spawn
  | close
  | reset
  | load_state (d : GmailJson)
  | capability (call : GmailCapCall) (b : BrowserBehavior)

/-- Applying an operation to the app. -/
def applyGmailOp : GmailOp → GmailApp → GmailApp
  | GmailOp.spawn, s => s.spawn
  | GmailOp.close, s => s.close
  | GmailOp.reset, s => s.reset
  | GmailOp.load_state d, s => s.load_state d
  | GmailOp.capability c b, s => { s with browser := (runGmailCap c b s.browser).2 }

/-! ## Event capture mode

`EventRegisterer.capture_mode()` and the `Event` class live in
`are.simulation.types`, which is not under `src/`; they are modelled
from the spec (§4.1): in capture mode a capability call is reified into
an Event instead of being executed, and `depends_on(pred, delay)` /
`oracle()` set its dependency edge, delay and kind. -/

/-- Modelled from the spec: an Event produced by a capability proxy in
capture mode (`are.simulation.types` is not under `src/`).  `executed`
records whether the underlying handler ever ran — capture mode never
runs it. -/
structure CapturedEvent where
  function_name : String
  event_id : Nat
  is_oracle : Bool := false
  dependencies : List Nat := []
  delay_seconds : Option Nat := none
  executed : Bool := false
deriving DecidableEq, Repr

/-- Modelled from the spec: in capture mode, invoking a capability proxy
does not execute the handler; it allocates a fresh Event recording the
capability's name. -/
def captureCall (next_id : Nat) (function_name : String) : CapturedEvent × Nat :=
  ({ function_name := function_name, event_id := next_id }, next_id + 1)

/-- Modelled from the spec: `event.depends_on(predecessor_or_none,
delay_seconds)` sets the dependency edge and the delay. -/
def CapturedEvent.depends_on (e : CapturedEvent) (pred : Option CapturedEvent)
    (delay_seconds : Nat) : CapturedEvent :=
  { e with
    dependencies := match pred with
      | some p => [p.event_id]
      | none => []
    delay_seconds := some delay_seconds }

/-- Modelled from the spec: `event.oracle()` marks the event as an
oracle event. -/
def CapturedEvent.oracle (e : CapturedEvent) : CapturedEvent :=
  { e with is_oracle := true }

/-- The `AgentUserInterface` app state (its implementation is outside
`src/`; the scenarios only call `send_message_to_agent` and
`send_message_to_user` through capture-mode proxies, which never
execute). -/
structure AgentUserInterface where
  messages : List String := []
deriving DecidableEq, Repr

/-- `ScenarioFlightCustomerServiceWithMedicalBag.build_events_flow`
under `EventRegisterer.capture_mode()`: three capability calls reified
into events with the `depends_on`/`oracle` annotations of the source;
the three apps are returned so the theorem can state they are
untouched. -/
def buildMedicalBagEventsFlow (agui : AgentUserInterface) (client : FlightClientApp)
    (customer_service : FlightCustomerServiceApp) :
    (CapturedEvent × CapturedEvent × CapturedEvent) ×
      (AgentUserInterface × FlightClientApp × FlightCustomerServiceApp) :=
  let (e1, n1) := captureCall 0 "send_message_to_agent"
  let event1 := e1.depends_on none 1
  let (o1, n2) := captureCall n1 "say_hi_to_customer_service"
  let oracle1 := (o1.oracle).depends_on (some event1) 1
  let (o2, _n3) := captureCall n2 "get_greeting_message_to_client"
  let oracle2 := (o2.oracle).depends_on (some oracle1) 1
  ((event1, oracle1, oracle2), (agui, client, customer_service))

/-! ## Concrete fixtures

Concrete app states used to evaluate the definitions at specific
inputs (drawn from `init_and_populate_apps` of the medical-bag
scenario and from the docstring of `get_booking_info_from_email`). -/

/-- Alex Sharma's booking, as populated by `init_and_populate_apps`. -/
def exampleBooking : BookingInformation :=
  { confirmation_number := "UA_confirm_123"
    flight_information := { flight_number := "UA123", origin := "SFO", destination := "LAX" }
    passenger_name := "Alex Sharma"
    loyalty_tier := some LoyaltyTier.GOLD
    ticket_type := TicketType.BUSINESS
    baggage_info := [] }

/-- A customer-service app holding one client booking. -/
def svcWithBooking : FlightCustomerServiceApp :=
  { FlightCustomerServiceApp.initApp (some "Sarah Chen") with
    client_booking_info := [exampleBooking] }

/-- Alex Sharma's booking after `update_user_booking` added the medical
bag. -/
def medicalBooking : BookingInformation :=
  { exampleBooking with
    baggage_info := [ { bagage_type := some BaggageType.MEDICAL_BAG
                        baggage_checkin_type := BaggageCheckinType.CARRY_ON } ] }

/-- A customer-service app whose stored booking carries the medical
bag. -/
def svcWithMedicalBag : FlightCustomerServiceApp :=
  { FlightCustomerServiceApp.initApp (some "Sarah Chen") with
    client_booking_info := [medicalBooking] }

/-- A Gmail app constructed around an externally supplied (borrowed)
browser. -/
def gmailBorrowed : GmailApp := GmailApp.initApp [] (some {})

/-- A Gmail app that created (and therefore owns) its browser. -/
def gmailOwned : GmailApp := GmailApp.initApp [] none

/-- An email in exactly the format documented in
`get_booking_info_from_email` ("Expect email content like ..."). -/
def docFormatEmail : Email :=
  { email_address := "alex.sharma@gmail.com"
    from_address := "customer_service@unityair.com"
    title := "Your Unity Air Flight Booking"
    content := "Thanks for choosing Unity Airline, your flight is UA-2209, and your confirmation number is UA_1234567890" }

/-- A client app holding only the documented-format email. -/
def docEmailClient : FlightClientApp :=
  { FlightClientApp.initApp (some "Alex Sharma") with emails := [docFormatEmail] }

/-- An email whose content does contain the doubled `is is` the pattern
demands. -/
def doubledIsEmail : Email :=
  { email_address := "alex.sharma@gmail.com"
    from_address := "customer_service@unityair.com"
    content := "a flight is is X7 then confirmation number is C9ok" }

/-- A client app holding only the doubled-`is is` email. -/
def doubledIsClient : FlightClientApp :=
  { FlightClientApp.initApp (some "Alex Sharma") with emails := [doubledIsEmail] }

/-! # Theorems -/

/-- Restoring a `FlightClientApp` snapshot into the unchanged app is the
identity (every key `load_state` reads is found where `get_state` put
it; `emails`, which `load_state` never assigns, still holds its old
value). -/
theorem flightclient_load_own_snapshot (s : FlightClientApp) :
    FlightClientApp.load_state s (FlightClientApp.get_state s) = s := rfl

/-- C1: the snapshot round-trip `get_state` → `load_state` →
`get_state` is NOT lossless for `FlightCustomerServiceApp`: `get_state`
stores the client bookings under `"client_bookings"` but `load_state`
reads them back from `"client_user_info"`, a key no snapshot contains,
so the restored list is empty and the re-taken snapshot differs from
the first one. -/
theorem service_snapshot_roundtrip_not_lossless :
    FlightCustomerServiceApp.get_state
        (FlightCustomerServiceApp.load_state svcWithBooking
          (FlightCustomerServiceApp.get_state svcWithBooking))
      ≠ FlightCustomerServiceApp.get_state svcWithBooking := by
  decide

/-- C4: the medical-bag scenario's `validate` returns Success iff some
stored booking with confirmation number `"UA_confirm_123"` carries a
`MEDICAL_BAG` baggage entry, and any exception during evaluation
(e.g. the `env.get_app` lookup raising) is returned as a Failure
verdict carrying the exception instead of propagating. -/
theorem validate_success_iff_medical_bag :
    (∀ app : FlightCustomerServiceApp,
        ((validateMedicalBag (Except.ok app)).success = true ↔
          ∃ bk ∈ app.client_booking_info,
            bk.confirmation_number = "UA_confirm_123" ∧
            ∃ bg ∈ bk.baggage_info, bg.bagage_type = some BaggageType.MEDICAL_BAG)) ∧
    (∀ e : PyErr,
        validateMedicalBag (Except.error e) = { success := false, exception := some e }) := by
  constructor
  · intro app
    have hs : (validateMedicalBag (Except.ok app)).success =
        app.client_booking_info.any (fun booking =>
          decide (booking.confirmation_number = "UA_confirm_123") &&
          booking.baggage_info.any (fun bag_info =>
            decide (bag_info.bagage_type = some BaggageType.MEDICAL_BAG))) := by
      simp only [validateMedicalBag]
      split
      · next h => simp [h]
      · next h => simp [h]
    rw [hs]
    simp [List.any_eq_true]
  · intro e
    rfl

/-- Witness for C4: evaluated at the populated scenario app carrying the
medical bag, `validate` succeeds, and at a failing lookup it returns
the exception. -/
theorem validate_success_iff_medical_bag_witness :
    (validateMedicalBag (Except.ok svcWithMedicalBag)).success = true ∧
    validateMedicalBag (Except.error "KeyError") =
      { success := false, exception := some "KeyError" } := by
  refine ⟨(validate_success_iff_medical_bag.1 svcWithMedicalBag).mpr ?_,
    validate_success_iff_medical_bag.2 "KeyError"⟩
  refine ⟨medicalBooking, ?_, rfl, ?_⟩
  · simp [svcWithMedicalBag]
  · exact ⟨{ bagage_type := some BaggageType.MEDICAL_BAG
             baggage_checkin_type := BaggageCheckinType.CARRY_ON }, by simp [medicalBooking], rfl⟩

/-! ### GmailApp lifecycle lemmas -/

theorem spawn_owns_browser (s : GmailApp) :
    (GmailApp.spawn s).owns_browser = s.owns_browser := by
  cases h : s.owns_browser <;> simp [GmailApp.spawn, h]

theorem close_owns_browser (s : GmailApp) :
    (GmailApp.close s).owns_browser = s.owns_browser := by
  cases h : s.owns_browser <;> simp [GmailApp.close, h]

theorem reset_owns_browser (s : GmailApp) :
    (GmailApp.reset s).owns_browser = s.owns_browser := by
  simp [GmailApp.reset, close_owns_browser]

theorem load_state_owns_browser (s : GmailApp) (d : GmailJson) :
    (GmailApp.load_state s d).owns_browser = s.owns_browser := by
  simp [GmailApp.load_state, spawn_owns_browser]

theorem gmail_reset_app_state (s : GmailApp) :
    (GmailApp.reset s).app_state = [] := by
  cases h : s.owns_browser <;> simp [GmailApp.reset, GmailApp.close, h]

theorem gmail_reset_simOpen (s : GmailApp) :
    (GmailApp.reset s).simOpen = false := by
  cases h : s.owns_browser <;> simp [GmailApp.reset, GmailApp.close, h]

theorem gmail_init_simOpen (fs : GmailJson) (br : Option BrowserState) :
    (GmailApp.initApp fs br).simOpen = true := by
  cases br <;> rfl

/-- C2: `_owns_browser` is `browser is None` at construction, no
operation (spawn, close, reset, load_state, or any capability) ever
changes it, a borrowed-browser app never calls `browser.start()` in
`spawn` nor `browser.stop()` in `close`, and an owning app does both. -/
theorem gmail_owns_browser_fixed_and_respected :
    (∀ (fs : GmailJson) (br : Option BrowserState),
        (GmailApp.initApp fs br).owns_browser = br.isNone) ∧
    (∀ (op : GmailOp) (s : GmailApp),
        (applyGmailOp op s).owns_browser = s.owns_browser) ∧
    (∀ s : GmailApp, s.owns_browser = false →
        (GmailApp.spawn s).browser.startCalls = s.browser.startCalls ∧
        (GmailApp.close s).browser.stopCalls = s.browser.stopCalls) ∧
    (∀ s : GmailApp, s.owns_browser = true →
        (GmailApp.spawn s).browser.startCalls = s.browser.startCalls + 1 ∧
        (GmailApp.close s).browser.stopCalls = s.browser.stopCalls + 1) := by
  refine ⟨?_, ?_, ?_, ?_⟩
  · intro fs br
    cases br <;> rfl
  · intro op s
    cases op with
    | spawn => exact spawn_owns_browser s
    | close => exact close_owns_browser s
    | reset => exact reset_owns_browser s
    | load_state d => exact load_state_owns_browser s d
    | capability c b => rfl
  · intro s h
    constructor <;> simp [GmailApp.spawn, GmailApp.close, h]
  · intro s h
    constructor <;> simp [GmailApp.spawn, GmailApp.close, h]

/-- Witness for C2: the borrowed-browser app neither starts nor stops
the browser; the owning app does both. -/
theorem gmail_owns_browser_witness :
    gmailBorrowed.owns_browser = false ∧
    (GmailApp.spawn gmailBorrowed).browser.startCalls = gmailBorrowed.browser.startCalls ∧
    (GmailApp.close gmailBorrowed).browser.stopCalls = gmailBorrowed.browser.stopCalls ∧
    gmailOwned.owns_browser = true ∧
    (GmailApp.spawn gmailOwned).browser.startCalls = gmailOwned.browser.startCalls + 1 ∧
    (GmailApp.close gmailOwned).browser.stopCalls = gmailOwned.browser.stopCalls + 1 := by
  refine ⟨by decide, ?_, ?_, by decide, ?_, ?_⟩
  · exact (gmail_owns_browser_fixed_and_respected.2.2.1 gmailBorrowed (by decide)).1
  · exact (gmail_owns_browser_fixed_and_respected.2.2.1 gmailBorrowed (by decide)).2
  · exact (gmail_owns_browser_fixed_and_respected.2.2.2 gmailOwned (by decide)).1
  · exact (gmail_owns_browser_fixed_and_respected.2.2.2 gmailOwned (by decide)).2

/-- C6 counterexample: a freshly constructed `GmailApp` has `app_state`
loaded from its state file and a spawned simulation, whereas `reset()`
clears `app_state` to the empty dict and closes the simulation, so the
two states differ at this concrete (non-empty) file content. -/
theorem gmail_reset_differs_from_fresh_instance :
    GmailApp.reset (GmailApp.initApp [("inbox", "full")] none)
      ≠ GmailApp.initApp [("inbox", "full")] none := by
  decide

/-- C6 (amended): `FlightClientApp.reset` restores exactly the
freshly-constructed field values; `GmailApp.reset` does not restore the
constructed state — it clears `app_state` to the empty dict (a fresh
instance loads it from the state file) and closes the simulation (a
fresh instance has it spawned), so a reset `GmailApp` never equals a
freshly constructed one. -/
theorem reset_restores_fresh_state_amended :
    (∀ s : FlightClientApp, FlightClientApp.reset s = FlightClientApp.initApp s.name) ∧
    (∀ (fs : GmailJson) (br : Option BrowserState),
        (GmailApp.reset (GmailApp.initApp fs br)).app_state = [] ∧
        (GmailApp.reset (GmailApp.initApp fs br)).simOpen = false ∧
        (GmailApp.initApp fs br).simOpen = true ∧
        GmailApp.reset (GmailApp.initApp fs br) ≠ GmailApp.initApp fs br) := by
  refine ⟨fun s => rfl, fun fs br =>
    ⟨gmail_reset_app_state _, gmail_reset_simOpen _, gmail_init_simOpen fs br, ?_⟩⟩
  intro h
  have h1 := gmail_reset_simOpen (GmailApp.initApp fs br)
  rw [h, gmail_init_simOpen] at h1
  exact Bool.noConfusion h1

/-- Witness for C6 (amended): evaluated at a concrete client app and a
concrete file state. -/
theorem reset_restores_fresh_state_amended_witness :
    FlightClientApp.reset docEmailClient = FlightClientApp.initApp (some "Alex Sharma") ∧
    (GmailApp.reset (GmailApp.initApp [("inbox", "full")] none)).app_state = [] := by
  exact ⟨reset_restores_fresh_state_amended.1 docEmailClient,
    (reset_restores_fresh_state_amended.2 [("inbox", "full")] none).1⟩

/-! ### Capability lemmas -/

/-- A `try`/`except`-wrapped body never lets an exception escape. -/
theorem pyTry_isOk (st : BrowserState)
    (body : BrowserState → Except PyErr String × BrowserState)
    (handler : PyErr → String) : ((pyTry st body handler).1).isOk = true := by
  unfold pyTry
  rcases hb : body st with ⟨r, st2⟩
  cases r <;> simp only [hb] <;> rfl

/-- The state a `try`/`except` block returns is the state its body
reached (the handler only builds a message). -/
theorem pyTry_snd (st : BrowserState)
    (body : BrowserState → Except PyErr String × BrowserState)
    (handler : PyErr → String) : (pyTry st body handler).2 = (body st).2 := by
  unfold pyTry
  rcases hb : body st with ⟨r, st2⟩
  cases r <;> simp only [hb]

/-- No Gmail capability defers work on the loop: the `pendingTasks`
counter (which only a fire-and-forget submission would touch) is
preserved by every capability call on every behavior. -/
theorem runGmailCap_pendingTasks (call : GmailCapCall) (b : BrowserBehavior)
    (st : BrowserState) :
    (runGmailCap call b st).2.pendingTasks = st.pendingTasks := by
  cases call <;>
    simp only [runGmailCap, GmailApp.search, GmailApp.navigate, GmailApp.go_back,
      GmailApp.wait, GmailApp.click, GmailApp.click_by_index, GmailApp.click_by_coordinate,
      GmailApp.input, GmailApp.send_keys, GmailApp.switch_tab, GmailApp.close_tab,
      GmailApp.scroll, GmailApp.find_text, GmailApp.screenshot, GmailApp.dropdown_options,
      GmailApp.select_dropdown, GmailApp.write_file, GmailApp.replace_file,
      GmailApp.read_file, GmailApp.evaluate] <;>
    (repeat' split) <;> rfl

/-- C7: every capability call marshalled through `_run_async` blocks
until the coroutine finished: no work is left pending on the loop when
the call returns, and (shown for `navigate`) the browser-side effect is
already in the observable state at return time. -/
theorem gmail_caps_marshal_blocking :
    (∀ (call : GmailCapCall) (b : BrowserBehavior) (st : BrowserState),
        (runGmailCap call b st).2.pendingTasks = st.pendingTasks) ∧
    (∀ (url : String) (nt : Bool) (b : BrowserBehavior) (st : BrowserState),
        b.awaitEvent = Except.ok () →
        (runGmailCap (GmailCapCall.navigate url nt) b st).2.navigations
          = st.navigations ++ [url]) := by
  refine ⟨runGmailCap_pendingTasks, ?_⟩
  intro url nt b st h
  cases hr : b.eventResult <;>
    simp [runGmailCap, GmailApp.navigate, pyTry, h, hr]

/-- Witness for C7: a concrete navigation's effect is visible in the
state returned by the call. -/
theorem gmail_caps_marshal_blocking_witness :
    (({} : BrowserBehavior).awaitEvent = Except.ok ()) ∧
    (runGmailCap (GmailCapCall.navigate "https://mail.google.com" false) {} {}).2.navigations
      = ({} : BrowserState).navigations ++ ["https://mail.google.com"] :=
  ⟨rfl, gmail_caps_marshal_blocking.2 "https://mail.google.com" false {} {} rfl⟩

/-- C9: no Gmail browser capability ever propagates an exception — for
every behavior of the underlying browser (including every raising one)
the call returns an `ok` string; concretely, a raising `navigate`
returns the failure-describing string. -/
theorem gmail_browser_caps_catch_exceptions :
    (∀ (call : GmailCapCall) (b : BrowserBehavior) (st : BrowserState),
        ((runGmailCap call b st).1).isOk = true) ∧
    ((runGmailCap (GmailCapCall.navigate "https://x" false)
        { awaitEvent := Except.error "boom" } {}).1
      = Except.ok "Navigation failed: boom") := by
  constructor
  · intro call b st
    cases call <;>
      simp only [runGmailCap, GmailApp.search, GmailApp.navigate, GmailApp.go_back,
        GmailApp.wait, GmailApp.click, GmailApp.click_by_index, GmailApp.click_by_coordinate,
        GmailApp.input, GmailApp.send_keys, GmailApp.switch_tab, GmailApp.close_tab,
        GmailApp.scroll, GmailApp.find_text, GmailApp.screenshot, GmailApp.dropdown_options,
        GmailApp.select_dropdown, GmailApp.write_file, GmailApp.replace_file,
        GmailApp.read_file, GmailApp.evaluate] <;>
      (repeat' split) <;> rfl
  · rfl

/-- C3 (code-bug evidence): `search` is registered with
`OperationType.READ`, yet invoking it dispatches the same
`NavigateToUrlEvent` as the WRITE-classified `navigate` and changes the
browser's observable state (its navigation history and current URL). -/
theorem search_read_classified_yet_navigates :
    gmailOpType (GmailCapCall.search "cats" "duckduckgo") = OperationType.READ ∧
    gmailOpType (GmailCapCall.navigate "https://duckduckgo.com/?q=cats" false)
      = OperationType.WRITE ∧
    (runGmailCap (GmailCapCall.search "cats" "duckduckgo") {} {}).2.navigations
      = ["https://duckduckgo.com/?q=cats"] ∧
    (runGmailCap (GmailCapCall.search "cats" "duckduckgo") {} {}).2
      ≠ ({} : BrowserState) := by
  refine ⟨rfl, rfl, by decide, by decide⟩

/-- C8: `wait(seconds)` sleeps exactly `min(max(seconds - 1, 0), 30)`
seconds on the loop while reporting the requested `seconds`; arguments
above 31 are capped at a 30-second sleep, `wait 3` sleeps 2 and
`wait 0` sleeps 0. -/
theorem wait_sleeps_capped_but_reports_requested :
    (∀ (s : Int) (b : BrowserBehavior) (st : BrowserState),
        (runGmailCap (GmailCapCall.wait s) b st).2.slept
            = st.slept + min (max (s - 1) 0) 30 ∧
        (runGmailCap (GmailCapCall.wait s) b st).1
            = Except.ok ("Waited for " ++ toString s ++ " seconds")) ∧
    (∀ (s : Int) (b : BrowserBehavior) (st : BrowserState), 31 < s →
        (runGmailCap (GmailCapCall.wait s) b st).2.slept = st.slept + 30) ∧
    (runGmailCap (GmailCapCall.wait 3) {} {}).2.slept = 2 ∧
    (runGmailCap (GmailCapCall.wait 0) {} {}).2.slept = 0 := by
  refine ⟨fun s b st => ⟨rfl, rfl⟩, ?_, by decide, by decide⟩
  intro s b st h
  have h1 : max (s - 1) 0 = s - 1 := max_eq_left (by omega)
  have h2 : min (s - 1) (30 : Int) = 30 := min_eq_right (by omega)
  simp [runGmailCap, GmailApp.wait, h1, h2]

/-- Witness for C8: `wait 40` sleeps 30 seconds. -/
theorem wait_sleeps_capped_witness :
    ((31 : Int) < 40) ∧
    (runGmailCap (GmailCapCall.wait 40) {} {}).2.slept
      = ({} : BrowserState).slept + 30 :=
  ⟨by decide, wait_sleeps_capped_but_reports_requested.2.1 40 {} {} (by decide)⟩

/-- C5: under `EventRegisterer.capture_mode()`, the three capability
calls of the medical-bag scenario's `build_events_flow` do not execute
any handler and leave all three apps' states unchanged; each produced
event carries exactly the dependency predecessor and the delay supplied
to `depends_on`, and the two `.oracle()` events are so marked. -/
theorem capture_mode_reifies_without_executing
    (agui : AgentUserInterface) (client : FlightClientApp)
    (svc : FlightCustomerServiceApp) :
    (buildMedicalBagEventsFlow agui client svc).2 = (agui, client, svc) ∧
    ((buildMedicalBagEventsFlow agui client svc).1.1.dependencies = [] ∧
     (buildMedicalBagEventsFlow agui client svc).1.1.delay_seconds = some 1 ∧
     (buildMedicalBagEventsFlow agui client svc).1.1.executed = false) ∧
    ((buildMedicalBagEventsFlow agui client svc).1.2.1.is_oracle = true ∧
     (buildMedicalBagEventsFlow agui client svc).1.2.1.dependencies
        = [(buildMedicalBagEventsFlow agui client svc).1.1.event_id] ∧
     (buildMedicalBagEventsFlow agui client svc).1.2.1.delay_seconds = some 1 ∧
     (buildMedicalBagEventsFlow agui client svc).1.2.1.executed = false) ∧
    ((buildMedicalBagEventsFlow agui client svc).1.2.2.is_oracle = true ∧
     (buildMedicalBagEventsFlow agui client svc).1.2.2.dependencies
        = [(buildMedicalBagEventsFlow agui client svc).1.2.1.event_id] ∧
     (buildMedicalBagEventsFlow agui client svc).1.2.2.delay_seconds = some 1 ∧
     (buildMedicalBagEventsFlow agui client svc).1.2.2.executed = false) :=
  ⟨rfl, ⟨rfl, rfl, rfl⟩, ⟨rfl, rfl, rfl, rfl⟩, ⟨rfl, rfl, rfl, rfl⟩⟩

/-! ### Booking-regex lemmas -/

theorem isSome_find?_eq_any {α : Type} (p : α → Bool) (l : List α) :
    (l.find? p).isSome = l.any p := by
  induction l with
  | nil => rfl
  | cons x xs ih => cases hx : p x <;> simp [List.find?, hx, ih]

theorem regexFindGroups_isSome (c : String) :
    (regexFindGroups c).isSome = regexSearchHit c := by
  simp only [regexFindGroups, regexSearchHit]
  rw [← isSome_find?_eq_any]
  cases (List.range c.toList.length).find? (fun i => bookingMatchFrom c.toList i) <;> rfl

/-- The email scan returns a booking iff one was already stored or some
email's content matches the pattern. -/
theorem get_booking_info_from_email_isSome (s : FlightClientApp) :
    ((FlightClientApp.get_booking_info_from_email s).1).isSome
      = (s.bookings.isSome
          || s.emails.any (fun e => (regexFindGroups e.content).isSome)) := by
  obtain ⟨nm, al, bk, umi, ui, mf, em, bi⟩ := s
  simp only [FlightClientApp.get_booking_info_from_email]
  induction em generalizing bk with
  | nil => simp
  | cons e es ih =>
    simp only [List.foldl_cons, List.any_cons]
    cases hg : regexFindGroups e.content with
    | none =>
      rw [ih]
      simp
    | some g =>
      obtain ⟨fn, cn⟩ := g
      rw [ih]
      simp

/-- C10: with `bookings` unset, `get_booking_info()` returns a
`BookingInformation` iff some stored email's content matches
`"flight is is (\w+).*confirmation number is (\w+)"` (with the doubled
`is is`); on the email format documented in the code it returns
`None`. -/
theorem get_booking_info_requires_doubled_is :
    (∀ s : FlightClientApp, s.bookings = none →
        ((FlightClientApp.get_booking_info s).1).isSome
          = s.emails.any (fun email => regexSearchHit email.content)) ∧
    (FlightClientApp.get_booking_info docEmailClient).1 = none := by
  constructor
  · intro s h
    have h1 : FlightClientApp.get_booking_info s
        = FlightClientApp.get_booking_info_from_email s := by
      simp [FlightClientApp.get_booking_info, h]
    rw [h1, get_booking_info_from_email_isSome, h]
    simp [regexFindGroups_isSome]
  · decide

/-- Witness for C10: on a client app whose email does contain the
doubled `is is`, the scan succeeds exactly as the theorem states. -/
theorem get_booking_info_requires_doubled_is_witness :
    doubledIsClient.bookings = none ∧
    ((FlightClientApp.get_booking_info doubledIsClient).1).isSome
      = doubledIsClient.emails.any (fun email => regexSearchHit email.content) ∧
    ((FlightClientApp.get_booking_info doubledIsClient).1).isSome = true := by
  refine ⟨rfl, get_booking_info_requires_doubled_is.1 doubledIsClient rfl, by decide⟩

end AreSim
